import Mathlib

/-!
Shallow embedding of `src/automated_meme_trading/meme_coin_trader.py`
(class `MemeCoinTrader`): the DEX registry, session construction, the
price query and the three transaction builders (buy, sell, approve).

External collaborators (the web3 RPC connection, ABI JSON files, key
derivation) are modelled as parameters: a `ChainState` record carries the
values the chain client returns during one call (block timestamp, gas
price, account transaction count), and the price-query chain call is a
function argument.  `Web3.to_checksum_address` is modelled faithfully,
including the EIP-55 checksum, which requires Keccak-256; the permutation
is implemented below over `Nat` lanes reduced mod 2^64.
-/

set_option maxRecDepth 100000

namespace MemeTrader

/-! ### Keccak-256 (needed by the EIP-55 address checksum) -/

/-- 64-bit rotate left of a lane value (`x < 2^64`). -/
def rol64 (x n : Nat) : Nat :=
  ((x <<< (n % 64)) ||| (x >>> (64 - n % 64))) % 18446744073709551616

/-- Rotation offsets of the rho step, indexed by lane index `x + 5*y`,
derived by the FIPS 202 walk: starting from lane (1,0), step `t` assigns
offset `(t+1)(t+2)/2 mod 64` and moves to `(y, 2x+3y mod 5)`. -/
def rhoOffsets : List Nat :=
  (List.foldl
    (fun acc t =>
      let x := acc.1
      let y := acc.2.1
      (y, (2 * x + 3 * y) % 5,
        acc.2.2.set (x + 5 * y) ((t + 1) * (t + 2) / 2 % 64)))
    (1, 0, List.replicate 25 0) (List.range 24)).2.2

/-- One step of the degree-8 LFSR of FIPS 202 (polynomial
`x^8 + x^6 + x^5 + x^4 + 1`, i.e. feedback mask 0x171 with the carry). -/
def lfsrStep (R : Nat) : Nat :=
  let R2 := R <<< 1
  if 256 ≤ R2 then (R2 ^^^ 0x171) % 256 else R2

/-- Bit `rc(t)` of FIPS 202: the low bit of the LFSR after `t mod 255`
steps from the initial state 1. -/
def rcBit (t : Nat) : Nat :=
  (lfsrStep^[t % 255] 1) % 2

/-- Round constants of the iota step, derived from the LFSR: constant `i`
has bit `2^j - 1` set when `rc(7i + j)` is 1. -/
def roundConstants : List Nat :=
  (List.range 24).map (fun i =>
    (List.range 7).foldl (fun acc j => acc + rcBit (7 * i + j) * 2 ^ (2 ^ j - 1)) 0)

/-- One Keccak-f[1600] round on a state of 25 lanes (index `x + 5*y`). -/
def keccakRound (s : List Nat) (rc : Nat) : List Nat :=
  let lane := fun (t : List Nat) (x y : Nat) => t.getD (x % 5 + 5 * (y % 5)) 0
  let C := (List.range 5).map (fun x =>
    lane s x 0 ^^^ lane s x 1 ^^^ lane s x 2 ^^^ lane s x 3 ^^^ lane s x 4)
  let D := (List.range 5).map (fun x =>
    C.getD ((x + 4) % 5) 0 ^^^ rol64 (C.getD ((x + 1) % 5) 0) 1)
  let thetaS := (List.range 25).map (fun i => s.getD i 0 ^^^ D.getD (i % 5) 0)
  let piS := (List.range 25).map (fun i =>
    let X := i % 5
    let Y := i / 5
    let x := (X + 3 * Y) % 5
    rol64 (lane thetaS x X) (rhoOffsets.getD (x + 5 * X) 0))
  let chiS := (List.range 25).map (fun i =>
    let X := i % 5
    let Y := i / 5
    lane piS X Y ^^^
      ((lane piS (X + 1) Y ^^^ 18446744073709551615) &&& lane piS (X + 2) Y))
  match chiS with
  | a0 :: rest => (a0 ^^^ rc) :: rest
  | [] => []

/-- The full 24-round Keccak-f[1600] permutation. -/
def keccakF (s : List Nat) : List Nat :=
  roundConstants.foldl keccakRound s

/-- Multi-rate padding for rate 136 bytes (Keccak-256). -/
def padKeccak (msg : List Nat) : List Nat :=
  let m := 136 - msg.length % 136
  if m = 1 then msg ++ [0x81]
  else msg ++ [0x01] ++ List.replicate (m - 2) 0 ++ [0x80]

/-- A 64-bit lane from 8 little-endian bytes. -/
def laneOfBytes (bs : List Nat) : Nat :=
  bs.foldr (fun b acc => acc * 256 + b) 0

/-- The 8 little-endian bytes of a 64-bit lane. -/
def bytesOfLane (v : Nat) : List Nat :=
  (List.range 8).map (fun i => v / 256 ^ i % 256)

/-- Keccak-256 of a byte sequence that fits in a single 136-byte block
(an EIP-55 input is always 40 bytes).  Returns the 32 digest bytes. -/
def keccak256 (msg : List Nat) : List Nat :=
  let padded := padKeccak msg
  let lanes := (List.range 17).map (fun j => laneOfBytes ((padded.drop (8 * j)).take 8))
  let final := keccakF (lanes ++ List.replicate 8 0)
  ((List.range 4).map (fun j => bytesOfLane (final.getD j 0))).flatten

/-- Big-endian nibble stream of a digest, aligned with hex characters. -/
def hashNibbles (bytes : List Nat) : List Nat :=
  (bytes.map (fun b => [b / 16, b % 16])).flatten

/-! ### EIP-55 checksum addresses (`Web3.to_checksum_address`) -/

/-- Value of an ASCII hex-digit code, `none` when the code is not one. -/
def hexVal (c : Nat) : Option Nat :=
  if 48 ≤ c ∧ c ≤ 57 then some (c - 48)
  else if 97 ≤ c ∧ c ≤ 102 then some (c - 87)
  else if 65 ≤ c ∧ c ≤ 70 then some (c - 55)
  else none

/-- Lower-case an ASCII hex-letter code. -/
def toLowerHex (c : Nat) : Nat :=
  if 65 ≤ c ∧ c ≤ 70 then c + 32 else c

/-- EIP-55: hash the lower-cased 40 hex codes, then upper-case every hex
letter whose aligned hash nibble is at least 8. -/
def checksumCodes (body : List Nat) : List Nat :=
  let lower := body.map toLowerHex
  let h := hashNibbles (keccak256 lower)
  (lower.zip h).map (fun p =>
    if 97 ≤ p.1 ∧ p.1 ≤ 102 ∧ 8 ≤ p.2 then p.1 - 32 else p.1)

/-- Model of `Web3.to_checksum_address`: accepts `0x` + 40 hex digits in
any case and returns the canonical EIP-55 form; `none` models the raised
`InvalidAddressError` on malformed input. -/
def toChecksumAddress (s : String) : Option String :=
  match s.toList with
  | '0' :: 'x' :: rest =>
    let body := rest.map Char.toNat
    if body.length = 40 ∧ body.all (fun c => (hexVal c).isSome) then
      some (String.mk ('0' :: 'x' :: (checksumCodes body).map Char.ofNat))
    else none
  | _ => none

/-- An address string already in canonical EIP-55 checksum form. -/
def isChecksumAddress (s : String) : Bool :=
  match toChecksumAddress s with
  | some t => t == s
  | none => false

/-- Numeric value of a well-formed `0x` + 40 hex digit address. -/
def addressValue (s : String) : Option Nat :=
  match s.toList with
  | '0' :: 'x' :: rest =>
    let body := rest.map Char.toNat
    if body.length = 40 ∧ body.all (fun c => (hexVal c).isSome) then
      some (body.foldl (fun acc c => acc * 16 + (hexVal c).getD 0) 0)
    else none
  | _ => none

/-! ### Data model of the trading client -/

/-- One entry of the `SUPPORTED_DEXES` class-level registry. -/
structure DexConfig where
  router : String
  name : String
  weth : String
deriving DecidableEq

/-- The fixed `SUPPORTED_DEXES` registry, verbatim from the source. -/
def SUPPORTED_DEXES : List (String × DexConfig) :=
  [("uniswap_v2",
    { router := "0x7a250d5630B4cF539739dF2C5dAcb4c659F2488D",
      name := "Uniswap V2",
      weth := "0xC02aaA39b223FE8D0A0e5C4F27eAD9083C756Cc2" }),
   ("sushiswap",
    { router := "0xd9e1cE17f2641f24aE83637ab66a2cca9C378B9F",
      name := "SushiSwap",
      weth := "0xC02aaA39b223FE8D0A0e5C4F27eAD9083C756Cc2" }),
   ("pancakeswap",
    { router := "0x10ED43C718714eb63d5aA57B78B54704E256024E",
      name := "PancakeSwap",
      weth := "0xbb4CdB9CBd36B01bD1cBaEBF2De08d9173bc095c" })]

/-- Dictionary lookup `SUPPORTED_DEXES[dex]` guarded by the membership
test of `__init__`. -/
def lookupDex (dex : String) : Option DexConfig :=
  (SUPPORTED_DEXES.find? (fun p => p.1 == dex)).map Prod.snd

/-- Errors raised by `__init__` (as `ValueError`s in the source) and by
`Web3.to_checksum_address`. -/
inductive TraderError where
  | unsupportedNetwork (network : String)
  | unsupportedDex (dex : String)
  | invalidAddress (addr : String)
deriving DecidableEq

/-- The attributes `__init__` stores on `self` (the web3 provider, router
ABI and contract handle are external collaborators and carry no state the
operations read beyond the chain values modelled by `ChainState`). -/
structure TraderSession where
  network : String
  current_dex : String
  router_address : String
  weth_address : String
  account : String
  private_key : String
deriving DecidableEq

/-- `MemeCoinTrader.__init__(dex, network)`: the network is checked first,
then the DEX membership test, then the registry addresses are passed
through `Web3.to_checksum_address` and stored.  The account address and
private key come from the environment and are parameters here. -/
def mkTrader (dex network account private_key : String) :
    Except TraderError TraderSession :=
  if network = "ethereum" ∨ network = "bsc" then
    match lookupDex dex with
    | none => .error (.unsupportedDex dex)
    | some cfg =>
      match toChecksumAddress cfg.router, toChecksumAddress cfg.weth with
      | some r, some w =>
        .ok { network := network, current_dex := dex, router_address := r,
              weth_address := w, account := account, private_key := private_key }
      | _, _ => .error (.invalidAddress cfg.router)
  else .error (.unsupportedNetwork network)

/-- The values the chain client returns during one builder call:
`get_block('latest').timestamp`, `eth.gas_price` and
`eth.get_transaction_count(account)`. -/
structure ChainState where
  timestamp : Nat
  gasPrice : Nat
  txCount : Nat
deriving DecidableEq

/-- `Web3.to_wei(n, 'ether')`. -/
def to_wei (n : Nat) : Nat := n * 1000000000000000000

/-- `Web3.from_wei(n, 'ether')`. -/
def from_wei (n : Nat) : ℚ := (n : ℚ) / 1000000000000000000

/-- The unsigned swap transaction assembled by `build_transaction` around
`swapExactETHForTokens` / `swapExactTokensForETH`: the calldata arguments
(`amountIn` absent for the ETH-in direction, minimum output, path,
recipient, deadline) together with the transaction fields. -/
structure UnsignedSwapTx where
  functionName : String
  amountIn : Option Nat
  amountOutMin : Nat
  path : List String
  recipient : String
  deadline : Nat
  fromAddr : String
  value : Nat
  gas : Nat
  gasPrice : Nat
  nonce : Nat
deriving DecidableEq

/-- `buy_token(token_address, amount_eth)` up to the point where the
unsigned transaction is handed to the signer; `none` models the
`InvalidAddressError` raised on a malformed token address.  The path
hard-codes the Ethereum WETH literal exactly as the source does. -/
def buy_token (s : TraderSession) (chain : ChainState)
    (token_address : String) (amount_eth : Nat) : Option UnsignedSwapTx :=
  match toChecksumAddress token_address with
  | none => none
  | some token =>
    let deadline := chain.timestamp + 300
    match toChecksumAddress "0xC02aaA39b223FE8D0A0e5C4F27eAD9083C756Cc2" with
    | none => none
    | some weth =>
      some { functionName := "swapExactETHForTokens",
             amountIn := none,
             amountOutMin := 0,
             path := [weth, token],
             recipient := s.account,
             deadline := deadline,
             fromAddr := s.account,
             value := to_wei amount_eth,
             gas := 250000,
             gasPrice := chain.gasPrice,
             nonce := chain.txCount }

/-- `sell_token(token_address, amount_tokens)` up to the signer hand-off.
`build_transaction` receives no `value` key, so the value field is the
zero default; the token amount is the first calldata argument. -/
def sell_token (s : TraderSession) (chain : ChainState)
    (token_address : String) (amount_tokens : Nat) : Option UnsignedSwapTx :=
  match toChecksumAddress token_address with
  | none => none
  | some token =>
    let deadline := chain.timestamp + 300
    match toChecksumAddress "0xC02aaA39b223FE8D0A0e5C4F27eAD9083C756Cc2" with
    | none => none
    | some weth =>
      some { functionName := "swapExactTokensForETH",
             amountIn := some amount_tokens,
             amountOutMin := 0,
             path := [token, weth],
             recipient := s.account,
             deadline := deadline,
             fromAddr := s.account,
             value := 0,
             gas := 250000,
             gasPrice := chain.gasPrice,
             nonce := chain.txCount }

/-- A transaction built by either swap builder. -/
def builtSwap (s : TraderSession) (chain : ChainState) (token : String)
    (amount : Nat) (tx : UnsignedSwapTx) : Prop :=
  buy_token s chain token amount = some tx ∨
  sell_token s chain token amount = some tx

/-- The unsigned approval transaction assembled around `approve`. -/
structure ApprovalTx where
  spender : String
  amount : Nat
  fromAddr : String
  gas : Nat
  gasPrice : Nat
  nonce : Nat
deriving DecidableEq

/-- `approve_token(token_address)` up to the signer hand-off (the ERC-20
ABI file is external configuration). -/
def approve_token (s : TraderSession) (chain : ChainState)
    (token_address : String) : Option ApprovalTx :=
  match toChecksumAddress token_address with
  | none => none
  | some _token =>
    some { spender := s.router_address,
           amount := 2 ^ 256 - 1,
           fromAddr := s.account,
           gas := 100000,
           gasPrice := chain.gasPrice,
           nonce := chain.txCount }

/-- `get_token_price(token_address, amount)`.  The router call
`getAmountsOut(amountIn, path).call()` is a function argument returning
either the amounts list or a failure.  The outer `Option` models an
exception escaping to the caller (only the address conversion, which sits
before the `try`); the inner `Option` is the returned value, `none` for
the `return None` of the handler (which also catches a too-short amounts
list). -/
def get_token_price (s : TraderSession)
    (chainCall : List String → Nat → Except String (List Nat))
    (token_address : String) (amount : Nat) : Option (Option ℚ) :=
  match toChecksumAddress token_address with
  | none => none
  | some token =>
    some (match chainCall [token, s.weth_address] (to_wei amount) with
      | .error _ => none
      | .ok amounts =>
        match amounts[1]? with
        | none => none
        | some a => some (from_wei a))

/-! ### Explicit-state method forms

The Python methods read `self` but never assign any attribute; the
explicit-state translation of each method therefore pairs its result with
the unchanged session. -/

/-- `buy_token` as a state transformer on the session. -/
def buy_token_method (s : TraderSession) (chain : ChainState)
    (token_address : String) (amount_eth : Nat) :
    TraderSession × Option UnsignedSwapTx :=
  (s, buy_token s chain token_address amount_eth)

/-- `sell_token` as a state transformer on the session. -/
def sell_token_method (s : TraderSession) (chain : ChainState)
    (token_address : String) (amount_tokens : Nat) :
    TraderSession × Option UnsignedSwapTx :=
  (s, sell_token s chain token_address amount_tokens)

/-- `approve_token` as a state transformer on the session. -/
def approve_token_method (s : TraderSession) (chain : ChainState)
    (token_address : String) : TraderSession × Option ApprovalTx :=
  (s, approve_token s chain token_address)

/-- `get_token_price` as a state transformer on the session. -/
def get_token_price_method (s : TraderSession)
    (chainCall : List String → Nat → Except String (List Nat))
    (token_address : String) (amount : Nat) :
    TraderSession × Option (Option ℚ) :=
  (s, get_token_price s chainCall token_address amount)

/-! ### Concrete fixtures used by the witnesses -/

/-- A 40-hex-digit token address whose digits carry no letter case. -/
def demoToken : String := "0x1111111111111111111111111111111111111111"

/-- The session `__init__('uniswap_v2', 'ethereum')` stores for a demo
account. -/
def demoSession : TraderSession :=
  { network := "ethereum", current_dex := "uniswap_v2",
    router_address := "0x7a250d5630B4cF539739dF2C5dAcb4c659F2488D",
    weth_address := "0xC02aaA39b223FE8D0A0e5C4F27eAD9083C756Cc2",
    account := "0xAda", private_key := "pk" }

/-- The session `__init__('pancakeswap', 'bsc')` stores for a demo
account. -/
def pancakeswapSession : TraderSession :=
  { network := "bsc", current_dex := "pancakeswap",
    router_address := "0x10ED43C718714eb63d5aA57B78B54704E256024E",
    weth_address := "0xbb4CdB9CBd36B01bD1cBaEBF2De08d9173bc095c",
    account := "0xAda", private_key := "pk" }

/-- Chain values of a first stubbed call. -/
def demoChain : ChainState := { timestamp := 1000, gasPrice := 7, txCount := 5 }

/-- Chain values of a later stubbed call (same nonce, later block). -/
def demoChain2 : ChainState := { timestamp := 1700, gasPrice := 9, txCount := 5 }

/-- The transaction `buy_token` assembles from `demoSession`, `demoChain`,
`demoToken` and 2 ether. -/
def demoBuyTx : UnsignedSwapTx :=
  { functionName := "swapExactETHForTokens", amountIn := none, amountOutMin := 0,
    path := ["0xC02aaA39b223FE8D0A0e5C4F27eAD9083C756Cc2", demoToken],
    recipient := "0xAda", deadline := 1300, fromAddr := "0xAda",
    value := 2000000000000000000, gas := 250000, gasPrice := 7, nonce := 5 }

/-- The transaction `sell_token` assembles from `demoSession`,
`demoChain2`, `demoToken` and 3 token units. -/
def demoSellTx : UnsignedSwapTx :=
  { functionName := "swapExactTokensForETH", amountIn := some 3, amountOutMin := 0,
    path := [demoToken, "0xC02aaA39b223FE8D0A0e5C4F27eAD9083C756Cc2"],
    recipient := "0xAda", deadline := 2000, fromAddr := "0xAda",
    value := 0, gas := 250000, gasPrice := 9, nonce := 5 }

/-- The transaction `approve_token` assembles from `demoSession`,
`demoChain` and `demoToken`. -/
def demoApproveTx : ApprovalTx :=
  { spender := "0x7a250d5630B4cF539739dF2C5dAcb4c659F2488D",
    amount := 2 ^ 256 - 1, fromAddr := "0xAda", gas := 100000,
    gasPrice := 7, nonce := 5 }

/-! ### Checksum facts about the concrete addresses

Each is a genuine EIP-55 computation: the mixed-case canonical form is
reproduced from the Keccak-256 hash of the lower-cased digits. -/

/-- The checksum computation reproduces the canonical WETH address from
all-lower-case input (end-to-end self-test of the Keccak-256 layer). -/
lemma cksum_weth_of_lower :
    toChecksumAddress "0xc02aaa39b223fe8d0a0e5c4f27ead9083c756cc2" =
      some "0xC02aaA39b223FE8D0A0e5C4F27eAD9083C756Cc2" := by decide

/-- The WETH literal hard-coded in `buy_token`/`sell_token` is canonical. -/
lemma cksum_weth :
    toChecksumAddress "0xC02aaA39b223FE8D0A0e5C4F27eAD9083C756Cc2" =
      some "0xC02aaA39b223FE8D0A0e5C4F27eAD9083C756Cc2" := by decide

/-- The registry WBNB address is canonical. -/
lemma cksum_wbnb :
    toChecksumAddress "0xbb4CdB9CBd36B01bD1cBaEBF2De08d9173bc095c" =
      some "0xbb4CdB9CBd36B01bD1cBaEBF2De08d9173bc095c" := by decide

/-- The registry Uniswap V2 router address is canonical. -/
lemma cksum_router_uniswap :
    toChecksumAddress "0x7a250d5630B4cF539739dF2C5dAcb4c659F2488D" =
      some "0x7a250d5630B4cF539739dF2C5dAcb4c659F2488D" := by decide

/-- The registry SushiSwap router address is canonical. -/
lemma cksum_router_sushiswap :
    toChecksumAddress "0xd9e1cE17f2641f24aE83637ab66a2cca9C378B9F" =
      some "0xd9e1cE17f2641f24aE83637ab66a2cca9C378B9F" := by decide

/-- The registry PancakeSwap router address is canonical. -/
lemma cksum_router_pancakeswap :
    toChecksumAddress "0x10ED43C718714eb63d5aA57B78B54704E256024E" =
      some "0x10ED43C718714eb63d5aA57B78B54704E256024E" := by decide

/-- The demo token address is already canonical (it has no hex letters). -/
lemma cksum_demoToken : toChecksumAddress demoToken = some demoToken := by decide

/-! ### Shape of every built transaction -/

/-- Full characterisation of a successful `buy_token` build. -/
lemma buy_token_eq_some (s : TraderSession) (c : ChainState) (t : String)
    (a : Nat) (tx : UnsignedSwapTx) (h : buy_token s c t a = some tx) :
    ∃ token, toChecksumAddress t = some token ∧
      tx = { functionName := "swapExactETHForTokens", amountIn := none,
             amountOutMin := 0,
             path := ["0xC02aaA39b223FE8D0A0e5C4F27eAD9083C756Cc2", token],
             recipient := s.account, deadline := c.timestamp + 300,
             fromAddr := s.account, value := to_wei a, gas := 250000,
             gasPrice := c.gasPrice, nonce := c.txCount } := by
  rcases ht : toChecksumAddress t with _ | token
  · simp only [buy_token, ht] at h
    exact Option.noConfusion h
  · simp only [buy_token, ht, cksum_weth, Option.some.injEq] at h
    exact ⟨token, rfl, h.symm⟩

/-- Full characterisation of a successful `sell_token` build. -/
lemma sell_token_eq_some (s : TraderSession) (c : ChainState) (t : String)
    (a : Nat) (tx : UnsignedSwapTx) (h : sell_token s c t a = some tx) :
    ∃ token, toChecksumAddress t = some token ∧
      tx = { functionName := "swapExactTokensForETH", amountIn := some a,
             amountOutMin := 0,
             path := [token, "0xC02aaA39b223FE8D0A0e5C4F27eAD9083C756Cc2"],
             recipient := s.account, deadline := c.timestamp + 300,
             fromAddr := s.account, value := 0, gas := 250000,
             gasPrice := c.gasPrice, nonce := c.txCount } := by
  rcases ht : toChecksumAddress t with _ | token
  · simp only [sell_token, ht] at h
    exact Option.noConfusion h
  · simp only [sell_token, ht, cksum_weth, Option.some.injEq] at h
    exact ⟨token, rfl, h.symm⟩

/-- Full characterisation of a successful `approve_token` build. -/
lemma approve_token_eq_some (s : TraderSession) (c : ChainState) (t : String)
    (tx : ApprovalTx) (h : approve_token s c t = some tx) :
    tx = { spender := s.router_address, amount := 2 ^ 256 - 1,
           fromAddr := s.account, gas := 100000, gasPrice := c.gasPrice,
           nonce := c.txCount } := by
  rcases ht : toChecksumAddress t with _ | token
  · simp only [approve_token, ht] at h
    exact Option.noConfusion h
  · simp only [approve_token, ht, Option.some.injEq] at h
    exact h.symm

/-- Evaluation of the demo buy build. -/
lemma buy_demo : buy_token demoSession demoChain demoToken 2 = some demoBuyTx := by
  have h := cksum_demoToken
  simp only [demoToken] at h
  simp only [buy_token, demoSession, demoChain, demoToken, h, cksum_weth]
  rfl

/-- Evaluation of the demo sell build. -/
lemma sell_demo : sell_token demoSession demoChain2 demoToken 3 = some demoSellTx := by
  have h := cksum_demoToken
  simp only [demoToken] at h
  simp only [sell_token, demoSession, demoChain2, demoToken, h, cksum_weth]
  rfl

/-- Evaluation of the demo approval build. -/
lemma approve_demo :
    approve_token demoSession demoChain demoToken = some demoApproveTx := by
  have h := cksum_demoToken
  simp only [demoToken] at h
  simp only [approve_token, demoSession, demoChain, demoToken, h]
  rfl

/-- Deadline of any built swap, stated once for both builders. -/
lemma builtSwap_deadline (s : TraderSession) (c : ChainState) (t : String)
    (a : Nat) (tx : UnsignedSwapTx) (h : builtSwap s c t a tx) :
    tx.deadline = c.timestamp + 300 := by
  rcases h with h | h
  · obtain ⟨token, -, rfl⟩ := buy_token_eq_some s c t a tx h
    rfl
  · obtain ⟨token, -, rfl⟩ := sell_token_eq_some s c t a tx h
    rfl

/-- Construction for a supported DEX id and a supported network. -/
lemma mkTrader_supported (dex network acc pk : String)
    (hn : network = "ethereum" ∨ network = "bsc") (cfg : DexConfig)
    (hc : lookupDex dex = some cfg) (r w : String)
    (hr : toChecksumAddress cfg.router = some r)
    (hw : toChecksumAddress cfg.weth = some w) :
    mkTrader dex network acc pk =
      Except.ok { network := network, current_dex := dex, router_address := r,
                  weth_address := w, account := acc, private_key := pk } := by
  simp only [mkTrader, if_pos hn, hc, hr, hw]

/-- Evaluation of `__init__('pancakeswap', 'bsc')`. -/
lemma mkTrader_pancake :
    mkTrader "pancakeswap" "bsc" "0xAda" "pk" = Except.ok pancakeswapSession :=
  mkTrader_supported "pancakeswap" "bsc" "0xAda" "pk" (Or.inr rfl)
    ⟨"0x10ED43C718714eb63d5aA57B78B54704E256024E", "PancakeSwap",
     "0xbb4CdB9CBd36B01bD1cBaEBF2De08d9173bc095c"⟩ rfl
    "0x10ED43C718714eb63d5aA57B78B54704E256024E"
    "0xbb4CdB9CBd36B01bD1cBaEBF2De08d9173bc095c"
    cksum_router_pancakeswap cksum_wbnb

/-! ### The claims -/

/-- C1 (counterexample): under the configured DEX `pancakeswap` the
swap builders put the hard-coded Ethereum WETH literal at the
wrapped-native end of the path, and that literal differs from the
session's configured wrapped-native address (WBNB), so the claimed
equality with the session's wrapped-native address fails there. -/
theorem hardcoded_weth_path_counterexample :
    mkTrader "pancakeswap" "bsc" "0xAda" "pk" = Except.ok pancakeswapSession ∧
    (buy_token pancakeswapSession demoChain demoToken 1).map
        (fun tx => (tx.path.length, tx.path.headD "")) =
      some (2, "0xC02aaA39b223FE8D0A0e5C4F27eAD9083C756Cc2") ∧
    (sell_token pancakeswapSession demoChain demoToken 1).map
        (fun tx => (tx.path.length, tx.path.getLastD "")) =
      some (2, "0xC02aaA39b223FE8D0A0e5C4F27eAD9083C756Cc2") ∧
    pancakeswapSession.weth_address ≠ "0xC02aaA39b223FE8D0A0e5C4F27eAD9083C756Cc2" := by
  have h := cksum_demoToken
  simp only [demoToken] at h
  refine ⟨mkTrader_pancake, ?_, ?_, by decide⟩
  · simp only [buy_token, pancakeswapSession, demoChain, demoToken, h, cksum_weth]
    rfl
  · simp only [sell_token, pancakeswapSession, demoChain, demoToken, h, cksum_weth]
    rfl

/-- C7: with a well-formed token address, a failing router query makes
`get_token_price` return the absent value instead of raising to the
caller, and a successful query returns the quoted amount converted from
wei. -/
theorem get_token_price_soft_failure
    (s : TraderSession)
    (goodCall badCall : List String → Nat → Except String (List Nat))
    (t tok : String) (qa : Nat) (e : String) (amounts : List Nat) (v : Nat)
    (ht : toChecksumAddress t = some tok)
    (hbad : badCall [tok, s.weth_address] (to_wei qa) = .error e)
    (hgood : goodCall [tok, s.weth_address] (to_wei qa) = .ok amounts)
    (hv : amounts[1]? = some v) :
    get_token_price s badCall t qa = some none ∧
    get_token_price s goodCall t qa = some (some (from_wei v)) := by
  constructor
  · simp only [get_token_price, ht, hbad]
  · simp only [get_token_price, ht, hgood, hv]

/-- C7 witness: a stubbed failing call and a stubbed call quoting 42 wei. -/
theorem get_token_price_soft_failure_witness :
    get_token_price demoSession (fun _ _ => Except.error "boom") demoToken 1 =
      some none ∧
    get_token_price demoSession (fun _ _ => Except.ok [5, 42]) demoToken 1 =
      some (some (from_wei 42)) :=
  get_token_price_soft_failure demoSession (fun _ _ => Except.ok [5, 42])
    (fun _ _ => Except.error "boom") demoToken demoToken 1 "boom" [5, 42] 42
    cksum_demoToken rfl rfl rfl

/-- C8: a supported DEX id yields a session holding the checksummed,
non-zero registry router and wrapped-native addresses; an unsupported id
makes construction fail with the unsupported-DEX error and no session. -/
theorem registry_checksummed_unsupported_fails
    (dex network acc pk : String)
    (hn : network = "ethereum" ∨ network = "bsc") :
    (∀ cfg, lookupDex dex = some cfg →
      isChecksumAddress cfg.router = true ∧ isChecksumAddress cfg.weth = true ∧
      addressValue cfg.router ≠ some 0 ∧ addressValue cfg.weth ≠ some 0 ∧
      mkTrader dex network acc pk =
        Except.ok { network := network, current_dex := dex,
                    router_address := cfg.router, weth_address := cfg.weth,
                    account := acc, private_key := pk }) ∧
    (lookupDex dex = none →
      mkTrader dex network acc pk = Except.error (TraderError.unsupportedDex dex)) := by
  constructor
  · intro cfg hcfg
    by_cases h1 : "uniswap_v2" = dex
    · subst h1
      rw [show lookupDex "uniswap_v2" =
          some ⟨"0x7a250d5630B4cF539739dF2C5dAcb4c659F2488D", "Uniswap V2",
                "0xC02aaA39b223FE8D0A0e5C4F27eAD9083C756Cc2"⟩ from rfl] at hcfg
      injection hcfg with hcfg
      subst hcfg
      refine ⟨?_, ?_, by decide, by decide,
        mkTrader_supported "uniswap_v2" network acc pk hn
          ⟨"0x7a250d5630B4cF539739dF2C5dAcb4c659F2488D", "Uniswap V2",
           "0xC02aaA39b223FE8D0A0e5C4F27eAD9083C756Cc2"⟩ rfl
          "0x7a250d5630B4cF539739dF2C5dAcb4c659F2488D"
          "0xC02aaA39b223FE8D0A0e5C4F27eAD9083C756Cc2"
          cksum_router_uniswap cksum_weth⟩
      · simp [isChecksumAddress, cksum_router_uniswap]
      · simp [isChecksumAddress, cksum_weth]
    by_cases h2 : "sushiswap" = dex
    · subst h2
      rw [show lookupDex "sushiswap" =
          some ⟨"0xd9e1cE17f2641f24aE83637ab66a2cca9C378B9F", "SushiSwap",
                "0xC02aaA39b223FE8D0A0e5C4F27eAD9083C756Cc2"⟩ from rfl] at hcfg
      injection hcfg with hcfg
      subst hcfg
      refine ⟨?_, ?_, by decide, by decide,
        mkTrader_supported "sushiswap" network acc pk hn
          ⟨"0xd9e1cE17f2641f24aE83637ab66a2cca9C378B9F", "SushiSwap",
           "0xC02aaA39b223FE8D0A0e5C4F27eAD9083C756Cc2"⟩ rfl
          "0xd9e1cE17f2641f24aE83637ab66a2cca9C378B9F"
          "0xC02aaA39b223FE8D0A0e5C4F27eAD9083C756Cc2"
          cksum_router_sushiswap cksum_weth⟩
      · simp [isChecksumAddress, cksum_router_sushiswap]
      · simp [isChecksumAddress, cksum_weth]
    by_cases h3 : "pancakeswap" = dex
    · subst h3
      rw [show lookupDex "pancakeswap" =
          some ⟨"0x10ED43C718714eb63d5aA57B78B54704E256024E", "PancakeSwap",
                "0xbb4CdB9CBd36B01bD1cBaEBF2De08d9173bc095c"⟩ from rfl] at hcfg
      injection hcfg with hcfg
      subst hcfg
      refine ⟨?_, ?_, by decide, by decide,
        mkTrader_supported "pancakeswap" network acc pk hn
          ⟨"0x10ED43C718714eb63d5aA57B78B54704E256024E", "PancakeSwap",
           "0xbb4CdB9CBd36B01bD1cBaEBF2De08d9173bc095c"⟩ rfl
          "0x10ED43C718714eb63d5aA57B78B54704E256024E"
          "0xbb4CdB9CBd36B01bD1cBaEBF2De08d9173bc095c"
          cksum_router_pancakeswap cksum_wbnb⟩
      · simp [isChecksumAddress, cksum_router_pancakeswap]
      · simp [isChecksumAddress, cksum_wbnb]
    · have e1 : (("uniswap_v2" : String) == dex) = false :=
        beq_eq_false_iff_ne.mpr h1
      have e2 : (("sushiswap" : String) == dex) = false :=
        beq_eq_false_iff_ne.mpr h2
      have e3 : (("pancakeswap" : String) == dex) = false :=
        beq_eq_false_iff_ne.mpr h3
      have hnone : lookupDex dex = none := by
        simp [lookupDex, SUPPORTED_DEXES, List.find?, e1, e2, e3]
      rw [hnone] at hcfg
      exact Option.noConfusion hcfg
  · intro hnone
    simp only [mkTrader, if_pos hn, hnone]

/-- C8 witness: the Uniswap V2 entry is checksummed and a made-up DEX id
is rejected at construction. -/
theorem registry_checksummed_unsupported_fails_witness :
    isChecksumAddress "0x7a250d5630B4cF539739dF2C5dAcb4c659F2488D" = true ∧
    mkTrader "curve" "ethereum" "0xAda" "pk" =
      Except.error (TraderError.unsupportedDex "curve") := by
  constructor
  · exact ((registry_checksummed_unsupported_fails "uniswap_v2" "ethereum" "0xAda"
      "pk" (Or.inl rfl)).1
      ⟨"0x7a250d5630B4cF539739dF2C5dAcb4c659F2488D", "Uniswap V2",
       "0xC02aaA39b223FE8D0A0e5C4F27eAD9083C756Cc2"⟩ rfl).1
  · exact (registry_checksummed_unsupported_fails "curve" "ethereum" "0xAda" "pk"
      (Or.inl rfl)).2 rfl

/-- C2: the deadline of every built swap equals the block timestamp
fetched during that call plus 300, and a build against a strictly later
fetched timestamp carries a strictly later deadline. -/
theorem swap_deadline_fresh_timestamp_plus_300
    (s s2 : TraderSession) (c c2 : ChainState) (t t2 : String) (a a2 : Nat)
    (tx tx2 : UnsignedSwapTx)
    (h : builtSwap s c t a tx) (h2 : builtSwap s2 c2 t2 a2 tx2) :
    tx.deadline = c.timestamp + 300 ∧
    (c.timestamp < c2.timestamp → tx.deadline < tx2.deadline) := by
  have e1 := builtSwap_deadline s c t a tx h
  have e2 := builtSwap_deadline s2 c2 t2 a2 tx2 h2
  exact ⟨e1, fun hlt => by rw [e1, e2]; omega⟩

/-- C2 witness: the demo buy at timestamp 1000 and the demo sell at
timestamp 1700. -/
theorem swap_deadline_fresh_timestamp_plus_300_witness :
    demoBuyTx.deadline = 1300 ∧ (1000 < 1700 → demoBuyTx.deadline < demoSellTx.deadline) :=
  swap_deadline_fresh_timestamp_plus_300 demoSession demoSession demoChain
    demoChain2 demoToken demoToken 2 3 demoBuyTx demoSellTx
    (Or.inl buy_demo) (Or.inr sell_demo)

/-- C3: the minimum-output argument of every built swap is 0, for both
directions and all inputs. -/
theorem swap_min_output_always_zero
    (s : TraderSession) (c : ChainState) (t : String) (a : Nat)
    (tx : UnsignedSwapTx) (h : builtSwap s c t a tx) :
    tx.amountOutMin = 0 := by
  rcases h with h | h
  · obtain ⟨token, -, rfl⟩ := buy_token_eq_some s c t a tx h
    rfl
  · obtain ⟨token, -, rfl⟩ := sell_token_eq_some s c t a tx h
    rfl

/-- C3 witness: the demo buy build. -/
theorem swap_min_output_always_zero_witness : demoBuyTx.amountOutMin = 0 :=
  swap_min_output_always_zero demoSession demoChain demoToken 2 demoBuyTx
    (Or.inl buy_demo)

/-- C4: every built approval names the session's router as spender,
approves 2^256 - 1, and carries gas limit 100000, whatever the token. -/
theorem approval_unlimited_router_spender
    (s : TraderSession) (c : ChainState) (t : String) (tx : ApprovalTx)
    (h : approve_token s c t = some tx) :
    tx.spender = s.router_address ∧ tx.amount = 2 ^ 256 - 1 ∧ tx.gas = 100000 := by
  obtain rfl := approve_token_eq_some s c t tx h
  exact ⟨rfl, rfl, rfl⟩

/-- C4 witness: the demo approval build. -/
theorem approval_unlimited_router_spender_witness :
    demoApproveTx.spender = demoSession.router_address ∧
    demoApproveTx.amount = 2 ^ 256 - 1 ∧ demoApproveTx.gas = 100000 :=
  approval_unlimited_router_spender demoSession demoChain demoToken
    demoApproveTx approve_demo

/-- C5: the gas limit of every built swap is the constant 250000,
independent of direction, token, amount and of every chain value. -/
theorem swap_gas_limit_fixed_250000
    (s : TraderSession) (c : ChainState) (t : String) (a : Nat)
    (tx : UnsignedSwapTx) (h : builtSwap s c t a tx) :
    tx.gas = 250000 := by
  rcases h with h | h
  · obtain ⟨token, -, rfl⟩ := buy_token_eq_some s c t a tx h
    rfl
  · obtain ⟨token, -, rfl⟩ := sell_token_eq_some s c t a tx h
    rfl

/-- C5 witness: the demo sell build. -/
theorem swap_gas_limit_fixed_250000_witness : demoSellTx.gas = 250000 :=
  swap_gas_limit_fixed_250000 demoSession demoChain2 demoToken 3 demoSellTx
    (Or.inr sell_demo)

/-- C6: a buy carries the requested ether amount converted to wei in the
value field and no calldata input amount; a sell carries value 0 and the
token amount as the calldata input-amount argument. -/
theorem swap_value_field_by_direction
    (s s2 : TraderSession) (c c2 : ChainState) (t t2 : String) (a a2 : Nat)
    (txb txs : UnsignedSwapTx)
    (hb : buy_token s c t a = some txb) (hs : sell_token s2 c2 t2 a2 = some txs) :
    txb.value = to_wei a ∧ txb.amountIn = none ∧
    txs.value = 0 ∧ txs.amountIn = some a2 := by
  obtain ⟨token, -, rfl⟩ := buy_token_eq_some s c t a txb hb
  obtain ⟨token2, -, rfl⟩ := sell_token_eq_some s2 c2 t2 a2 txs hs
  exact ⟨rfl, rfl, rfl, rfl⟩

/-- C6 witness: demo buy of 2 ether and demo sell of 3 token units. -/
theorem swap_value_field_by_direction_witness :
    demoBuyTx.value = to_wei 2 ∧ demoBuyTx.amountIn = none ∧
    demoSellTx.value = 0 ∧ demoSellTx.amountIn = some 3 :=
  swap_value_field_by_direction demoSession demoSession demoChain demoChain2
    demoToken demoToken 2 3 demoBuyTx demoSellTx buy_demo sell_demo

/-- C9: every built transaction's nonce is the transaction count fetched
during that call, so two builds served the same count carry the same
nonce. -/
theorem nonce_fetched_fresh_per_call
    (s s2 s3 : TraderSession) (c c2 c3 : ChainState) (t t2 t3 : String)
    (a a2 : Nat) (tx tx2 : UnsignedSwapTx) (atx : ApprovalTx)
    (h : builtSwap s c t a tx) (h2 : builtSwap s2 c2 t2 a2 tx2)
    (h3 : approve_token s3 c3 t3 = some atx) :
    tx.nonce = c.txCount ∧ atx.nonce = c3.txCount ∧
    (c.txCount = c2.txCount → tx.nonce = tx2.nonce) := by
  have e1 : tx.nonce = c.txCount := by
    rcases h with h | h
    · obtain ⟨token, -, rfl⟩ := buy_token_eq_some s c t a tx h
      rfl
    · obtain ⟨token, -, rfl⟩ := sell_token_eq_some s c t a tx h
      rfl
  have e2 : tx2.nonce = c2.txCount := by
    rcases h2 with h2 | h2
    · obtain ⟨token, -, rfl⟩ := buy_token_eq_some s2 c2 t2 a2 tx2 h2
      rfl
    · obtain ⟨token, -, rfl⟩ := sell_token_eq_some s2 c2 t2 a2 tx2 h2
      rfl
  refine ⟨e1, ?_, fun hc => by rw [e1, e2, hc]⟩
  obtain rfl := approve_token_eq_some s3 c3 t3 atx h3
  rfl

/-- C9 witness: the demo buy and sell builds share the stubbed count 5
and therefore the nonce. -/
theorem nonce_fetched_fresh_per_call_witness :
    demoBuyTx.nonce = 5 ∧ demoApproveTx.nonce = 5 ∧
    (5 = 5 → demoBuyTx.nonce = demoSellTx.nonce) :=
  nonce_fetched_fresh_per_call demoSession demoSession demoSession demoChain
    demoChain2 demoChain demoToken demoToken demoToken 2 3 demoBuyTx demoSellTx
    demoApproveTx (Or.inl buy_demo) (Or.inr sell_demo) approve_demo

/-- C10: no public operation mutates the session: the explicit-state form
of each method returns the session it was given, on success and on
failure alike (the source methods never assign an attribute of `self`). -/
theorem session_read_only_after_construction
    (s : TraderSession) (c : ChainState)
    (chainCall : List String → Nat → Except String (List Nat))
    (t : String) (qa ba sa : Nat) :
    (get_token_price_method s chainCall t qa).1 = s ∧
    (buy_token_method s c t ba).1 = s ∧
    (sell_token_method s c t sa).1 = s ∧
    (approve_token_method s c t).1 = s :=
  ⟨rfl, rfl, rfl, rfl⟩

end MemeTrader
